import Mathlib

/-!
Verification development for the tool-calling orchestration core of the Noa
assistant (`assistant/gpt_assistant.py`).

The Python source is shallowly embedded as executable Lean definitions:

* Python dictionaries are association lists in insertion order; assignment
  `d[k] = v` is `dictSet` (replace the value in place when the key exists,
  append otherwise), `dict.update` is a left fold of `dictSet`, lookup is
  `lookupD` (first match; keys built through `dictSet` are unique).
* `json.loads` of the model-generated argument text is an external library
  call; a raw payload is therefore represented by its parse outcome
  (`RawArgs`): unparsable (the `except: pass` path), a parsed non-object
  value, or a parsed JSON object (a Python dict: unique keys, insertion
  order).
* The completion endpoint, web-search backend and vision backend are external
  collaborators (spec section 6) and are passed in as function-valued oracles;
  every call made to them is also recorded in an explicit trace so that
  theorems can speak about "backend interaction".
* Python exceptions are `Except String`; wall-clock measurements
  (`timeit.default_timer`, the `tool_time` debug field) are real time and are
  not modelled.
-/

/-! ## Python dict primitives -/

/-- Python dict lookup on an insertion-ordered association list: first match. -/
def lookupD {α : Type} : List (String × α) → String → Option α
  | [], _ => none
  | (k', v) :: rest, k => if k' = k then some v else lookupD rest k

/-- Python dict assignment `d[k] = v`: replace the value of an existing key in
place (its position is preserved), append a new key at the end. -/
def dictSet {α : Type} (k : String) (v : α) : List (String × α) → List (String × α)
  | [] => [(k, v)]
  | (k', v') :: rest => if k' = k then (k', v) :: rest else (k', v') :: dictSet k v rest

/-- Value of the last binding of `k` in a (possibly duplicated) key/value list;
`foldl dictSet` makes the last binding win, like Python `dict.update`. -/
def lookupLast {α : Type} (l : List (String × α)) (k : String) : Option α :=
  lookupD l.reverse k

/-! ## Data model from `models.py`

`models.py` itself is not under `src/`; these definitions are modelled from the
spec (section 3, Data Model), which is all the embedded code relies on. -/

/-- Modelled from the spec: message roles, section 3: "role: one of
{system, user, assistant, tool}" (`models.Role`, not under `src/`). -/
inductive Role
  | SYSTEM
  | USER
  | ASSISTANT
  | TOOL
deriving DecidableEq, Repr

/-- Modelled from the spec: a conversation message, section 3:
"{role, content: text, optional tool-call metadata}" (`models.Message`, not
under `src/`). Only `role` and `content` are touched by the embedded code. -/
structure Message where
  role : Role
  content : String
deriving DecidableEq, Repr

/-- Modelled from the spec: capability tags, section 3: "one of
{assistant-knowledge, web-search, vision, reverse-image-search}"
(`models.Capability`, not under `src/`). -/
inductive Capability
  | ASSISTANT_KNOWLEDGE
  | WEB_SEARCH
  | VISION
  | REVERSE_IMAGE_SEARCH
deriving DecidableEq, Repr

/-- Modelled from the spec: per-model token accumulator, section 3:
"{input tokens, output tokens, total tokens}" (`models.TokenUsage`, not under
`src/`). -/
structure TokenUsage where
  input_tokens : Nat
  output_tokens : Nat
  total_tokens : Nat
deriving DecidableEq, Repr

/-- Mapping from model identifier to its token accumulator. -/
abbrev TokenMap := List (String × TokenUsage)

/-- Modelled from the spec: `models.accumulate_token_usage` (not under
`src/`), section 3: the mapping is "mutated additively across every completion
call in a turn". -/
def accumulate_token_usage (token_usage_by_model : TokenMap) (model : String)
    (input_tokens output_tokens total_tokens : Nat) : TokenMap :=
  match lookupD token_usage_by_model model with
  | some u =>
      dictSet model
        ⟨u.input_tokens + input_tokens, u.output_tokens + output_tokens,
         u.total_tokens + total_tokens⟩ token_usage_by_model
  | none => token_usage_by_model ++ [(model, ⟨input_tokens, output_tokens, total_tokens⟩)]

/-! ## History Pruner (`GPTAssistant._prune_history`) -/

/-- The in-place scan of `_prune_history` after `message_history.reverse()`:
walk the reversed history (most recent first) with per-role remaining budgets,
drop a user/assistant message whose budget is exhausted, keep everything else.
Deleting at the current index and not advancing is the same as skipping the
element, so the mutating loop reads as this structural recursion. -/
def prune_scan (assistant_messages_remaining user_messages_remaining : Nat) :
    List Message → List Message
  | [] => []
  | m :: rest =>
    if m.role = Role.ASSISTANT then
      match assistant_messages_remaining with
      | 0 => prune_scan 0 user_messages_remaining rest
      | n + 1 => m :: prune_scan n user_messages_remaining rest
    else if m.role = Role.USER then
      match user_messages_remaining with
      | 0 => prune_scan assistant_messages_remaining 0 rest
      | n + 1 => m :: prune_scan assistant_messages_remaining n rest
    else
      m :: prune_scan assistant_messages_remaining user_messages_remaining rest

/-- `GPTAssistant._prune_history`: reverse, scan with budgets 3 (assistant)
and 5 (user), reverse back. -/
def prune_history (message_history : List Message) : List Message :=
  (prune_scan 3 5 message_history.reverse).reverse

/-! ## Context Formatter (`GPTAssistant._create_context_system_message`) -/

/-- Source constant `CONTEXT_SYSTEM_MESSAGE_PREFIX` (renamed here). -/
def CONTEXT_SYSTEM_MESSAGE_HEADER : String := "## Additional context about the user:"

/-- The `context` dict built by `_create_context_system_message`: the two fixed
keys are assigned first (with their disclaimer substitutes when the value is
absent or empty), then `context.update(learned_context)` merges the learned
entries, which for a Python dict replaces values of existing keys in place. -/
def context_entries (local_time location : Option String)
    (learned_context : Option (List (String × String))) : List (String × String) :=
  let context : List (String × String) := []
  let context := dictSet "current_time"
    (match local_time with
     | some t =>
        if 0 < t.length then t
        else "If asked, tell user you don't know current date or time because clock is broken"
     | none => "If asked, tell user you don't know current date or time because clock is broken")
    context
  let context := dictSet "location"
    (match location with
     | some l =>
        if 0 < l.length then l
        else "You do not know user's location and if asked, tell them so"
     | none => "You do not know user's location and if asked, tell them so")
    context
  match learned_context with
  | some lc => lc.foldl (fun c kv => dictSet kv.1 kv.2 c) context
  | none => context

/-- `GPTAssistant._create_context_system_message`: header followed by one
`<key>value</key>` tag per context entry, joined with newlines. (The source's
`if value is not None` filter never fires: every value is a `str`.) -/
def create_context_system_message (local_time location : Option String)
    (learned_context : Option (List (String × String))) : String :=
  CONTEXT_SYSTEM_MESSAGE_HEADER ++
    String.intercalate "\n"
      ((context_entries local_time location learned_context).map
        (fun kv => "<" ++ kv.1 ++ ">" ++ kv.2 ++ "</" ++ kv.1 ++ ">"))

/-! ## Untrusted model-generated JSON -/

/-- A parsed JSON value, the possible results of `json.loads`: Python `str`,
`bool`, numbers, `None`, lists and dicts. (JSON numbers are modelled as
integers; the sanitizer only ever distinguishes strings and booleans from
everything else, so the numeric representation is irrelevant.) -/
inductive JValue
  | str (s : String)
  | bool (b : Bool)
  | num (n : Int)
  | null
  | arr (elems : List JValue)
  | obj (entries : List (String × JValue))

/-- `type(v) == str` in Python terms. -/
def JValue.isStr : JValue → Bool
  | .str _ => true
  | _ => false

/-- `type(v) == bool` in Python terms. -/
def JValue.isBool : JValue → Bool
  | .bool _ => true
  | _ => false

/-- The raw argument text of a tool call, represented through the lens of
`json.loads`: either the text is unparsable (`json.loads` raises and the
`except: pass` keeps `args = {}`), or it parses to a non-dict value, or it
parses to a JSON object — a Python dict, so entries have unique keys and keep
the text's insertion order. -/
inductive RawArgs
  | unparsable
  | nonObject (v : JValue)
  | object (entries : List (String × JValue))

/-- `tool_call.function` of an `openai` `ChatCompletionMessageToolCall`. -/
structure ToolCallFunction where
  name : String
  arguments : RawArgs

/-- A model-generated tool call (`ChatCompletionMessageToolCall`). -/
structure ChatCompletionMessageToolCall where
  id : String
  function : ToolCallFunction

/-! ## Tool catalog (`TOOLS`) -/

def DUMMY_SEARCH_TOOL_NAME : String := "general_knowledge_search"
def SEARCH_TOOL_NAME : String := "search"
def PHOTO_TOOL_NAME : String := "analyze_photo"
def QUERY_PARAM_NAME : String := "query"
def PHOTO_TOOL_WEB_SEARCH_PARAM_NAME : String := "google_reverse_image_search"
def PHOTO_TOOL_TRANSLATION_PARAM_NAME : String := "translate"

/-- One entry of `TOOLS` (`description["function"]`): the tool's name and its
parameter schema, as the mapping parameter name to declared `"type"`. The
natural-language `description` strings of the schema are prompt text with no
effect on the embedded control flow and are omitted. -/
structure ToolFunction where
  name : String
  parameters : List (String × String)
  required : List String
deriving DecidableEq, Repr

/-- The fixed tool catalog `TOOLS` advertised to the model. -/
def TOOLS : List ToolFunction := [
  { name := DUMMY_SEARCH_TOOL_NAME,
    parameters := [(QUERY_PARAM_NAME, "string")],
    required := [QUERY_PARAM_NAME] },
  { name := SEARCH_TOOL_NAME,
    parameters := [(QUERY_PARAM_NAME, "string")],
    required := [QUERY_PARAM_NAME] },
  { name := PHOTO_TOOL_NAME,
    parameters := [(QUERY_PARAM_NAME, "string"),
                   (PHOTO_TOOL_WEB_SEARCH_PARAM_NAME, "boolean"),
                   (PHOTO_TOOL_TRANSLATION_PARAM_NAME, "boolean")],
    required := [QUERY_PARAM_NAME, PHOTO_TOOL_WEB_SEARCH_PARAM_NAME,
                 PHOTO_TOOL_TRANSLATION_PARAM_NAME] }
]

/-! ## Sanitized argument values -/

/-- A value stored in the sanitized `args` dict of `prepare_tool_arguments`.
Values surviving JSON validation are `json`; the remaining constructors are the
caller-injected parameters. The service handles (`vision`, `web_search`) and
the shared mutable accumulators (`token_usage_by_model`, `capabilities_used`)
are references, represented as opaque markers — the dispatcher supplies the
actual oracles and accumulators from its own context, which is the same
reference the source would store here. -/
inductive ArgValue
  | json (v : JValue)
  | image_bytes (b : Option (List Nat))
  | vision
  | web_search
  | local_time (t : Option String)
  | learned_context (lc : Option (List (String × String)))
  | token_usage
  | capabilities

/-- `location if location else "unknown"`: Python truthiness makes both `None`
and the empty string fall back to `"unknown"`. -/
def default_location (location : Option String) : String :=
  match location with
  | some l => if 0 < l.length then l else "unknown"
  | none => "unknown"

/-- The argument validation loop of `prepare_tool_arguments`: drop keys not in
the declared parameter schema, drop string-typed parameters whose value is not
a string and boolean-typed parameters whose value is not a boolean, and raise
`ValueError` on any other declared parameter type. -/
def sanitizeEntries (function_parameters : List (String × String)) :
    List (String × JValue) → Except String (List (String × JValue))
  | [] => .ok []
  | (k, v) :: rest =>
    match lookupD function_parameters k with
    | none => sanitizeEntries function_parameters rest
    | some ty =>
      if ty = "string" then
        if v.isStr then
          match sanitizeEntries function_parameters rest with
          | .error e => .error e
          | .ok r => .ok ((k, v) :: r)
        else sanitizeEntries function_parameters rest
      else if ty = "boolean" then
        if v.isBool then
          match sanitizeEntries function_parameters rest with
          | .error e => .error e
          | .ok r => .ok ((k, v) :: r)
        else sanitizeEntries function_parameters rest
      else .error ("Unsupported tool parameter type: " ++ ty)

/-- `prepare_tool_arguments`. Exceptions are `.error`: the `[... ][0]` lookup
on an unknown tool name is an `IndexError` (unreachable from `handle_tool`,
which validates the name first); calling `.keys()` on a parsed non-dict value
is an `AttributeError`; an unsupported declared parameter type is a
`ValueError`. An unparsable payload is absorbed (`except: pass`) leaving
`args = {}`. After validation the ambient `location` and default `query` are
injected, and for the photo tool the caller-only parameters are appended. -/
def prepare_tool_arguments (tool_call : ChatCompletionMessageToolCall)
    (user_message : String) (image_bytes : Option (List Nat))
    (location local_time : Option String)
    (learned_context : Option (List (String × String))) :
    Except String (List (String × ArgValue)) :=
  match TOOLS.find? (fun d => d.name = tool_call.function.name) with
  | none => .error "IndexError"
  | some function_description =>
    let function_parameters := function_description.parameters
    match
      (match tool_call.function.arguments with
       | .unparsable => Except.ok []
       | .nonObject _ => Except.error "AttributeError"
       | .object entries => Except.ok entries) with
    | .error e => .error e
    | .ok entries =>
      match sanitizeEntries function_parameters entries with
      | .error e => .error e
      | .ok kept =>
        let args : List (String × ArgValue) := kept.map (fun kv => (kv.1, ArgValue.json kv.2))
        let args := dictSet "location" (ArgValue.json (.str (default_location location))) args
        let args := dictSet QUERY_PARAM_NAME
          (match lookupD args QUERY_PARAM_NAME with
           | some v => v
           | none => ArgValue.json (.str user_message)) args
        let args :=
          if tool_call.function.name = PHOTO_TOOL_NAME then
            dictSet "capabilities_used" ArgValue.capabilities
              (dictSet "token_usage_by_model" ArgValue.token_usage
                (dictSet "learned_context" (ArgValue.learned_context learned_context)
                  (dictSet "local_time" (ArgValue.local_time local_time)
                    (dictSet "web_search" ArgValue.web_search
                      (dictSet "vision" ArgValue.vision
                        (dictSet "image_bytes" (ArgValue.image_bytes image_bytes) args))))))
          else args
        .ok args

/-! ## External collaborators (spec section 6) -/

/-- Result of the web-search backend (`web_search.WebSearchResult`). -/
structure WebSearchResult where
  summary : String
  search_provider_metadata : String
deriving DecidableEq, Repr

/-- One call to `vision.query_image`. -/
structure VisionCall where
  system_message : String
  query : String
  image_bytes : Option (List Nat)
deriving DecidableEq, Repr

/-- One call to `web_search.search_web` with its keyword arguments
(`use_photo` and `image_bytes` default to `false` / absent at the backend when
the dispatcher does not pass them). -/
structure WebSearchCall where
  query : String
  location : Option String
  use_photo : Bool
  image_bytes : Option (List Nat)
deriving DecidableEq, Repr

/-- Trace entry: one network call made to an external backend. -/
inductive BackendCall
  | vision (c : VisionCall)
  | search (c : WebSearchCall)
deriving DecidableEq, Repr

/-- The two tool backends as deterministic oracles. `vision.query_image`
receives and mutates the shared token-usage accumulator; `search_web` does
not take it. -/
structure Backends where
  vision_query_image : VisionCall → TokenMap → String × TokenMap
  search_web : WebSearchCall → WebSearchResult

/-- A tool handler's return value: `WebSearchResult | str`. -/
inductive FunctionResponse
  | websearch (result : WebSearchResult)
  | text (s : String)
deriving DecidableEq, Repr

/-- Python `str.strip('"')`: remove every leading and trailing `"`. -/
def stripQuotes (s : String) : String :=
  String.mk (((s.toList.dropWhile (fun c => c = '"')).reverse.dropWhile
    (fun c => c = '"')).reverse)

/-! ## Prompt constants -/

def SYSTEM_MESSAGE : String :=
  "\nYou are Noa, a smart personal AI assistant inside the user's AR smart glasses that answers all user\nqueries and questions. You have access to a photo from the smart glasses camera of what the user was\nseeing at the time they spoke.\n\nMake your responses short (one or two sentences) and precise. Respond without any preamble when giving\ntranslations, just translate directly. When analyzing the user's view, speak as if you can actually\nsee and never make references to the photo or image you analyzed.\n"

def VISION_PHOTO_DESCRIPTION_SYSTEM_MESSAGE : String :=
  "\nYou are Noa, a smart personal AI assistant inside the user's AR smart glasses that answers all user\nqueries and questions. You have access to a photo from the smart glasses camera of what the user was\nseeing at the time they spoke but you NEVER mention the photo or image and instead respond as if you\nare actually seeing.\n\nThe camera is unfortunately VERY low quality but the user is counting on you to interpret the\nblurry, pixelated images. NEVER comment on image quality. Do your best with images.\n\nMake your responses short (one or two sentences) and precise. Respond without any preamble when giving\ntranslations, just translate directly. When analyzing the user's view, speak as if you can actually\nsee and never make references to the photo or image you analyzed.\n"

def VISION_GENERATE_REVERSE_IMAGE_SEARCH_QUERY_FROM_PHOTO_SYSTEM_MESSAGE : String :=
  "\nyou are photo tool, with help of photo and user's query, make a short (1 SENTENCE) and concise google search query that can be searched on internet with google reverse image search to answer the user.\n"

/-! ## Tool handlers -/

/-- `handle_general_knowledge_tool`: the dummy tool always returns the empty
string, forcing the model to answer from its own knowledge. -/
def handle_general_knowledge_tool (query : String) (image_bytes : Option (List Nat))
    (local_time location : Option String)
    (learned_context : Option (List (String × String))) : String :=
  ""

/-- `handle_photo_tool`. Besides the source's return value, the embedding
returns the updated shared accumulators (capability list, token-usage map,
mutated in place in the source) and the trace of backend calls made. -/
def handle_photo_tool (query : String) (B : Backends)
    (token_usage_by_model : TokenMap) (capabilities_used : List Capability)
    (google_reverse_image_search translate : Bool)
    (image_bytes : Option (List Nat)) (local_time location : Option String)
    (learned_context : Option (List (String × String))) :
    FunctionResponse × List Capability × TokenMap × List BackendCall :=
  let extra_context := "\n\n" ++ create_context_system_message local_time location learned_context
  if image_bytes = none ∨ image_bytes = some [] then
    (.text "Error: no photo supplied. Tell user: I think you're referring to something you can see. Can you provide a photo?",
     capabilities_used, token_usage_by_model, [])
  else if google_reverse_image_search && !translate then
    let capabilities_used := capabilities_used ++ [Capability.REVERSE_IMAGE_SEARCH]
    let system_prompt := VISION_GENERATE_REVERSE_IMAGE_SEARCH_QUERY_FROM_PHOTO_SYSTEM_MESSAGE ++ extra_context
    let vcall : VisionCall := ⟨system_prompt, query, image_bytes⟩
    let vres := B.vision_query_image vcall token_usage_by_model
    let scall : WebSearchCall := ⟨stripQuotes vres.1, location, true, image_bytes⟩
    (.websearch (B.search_web scall), capabilities_used, vres.2, [.vision vcall, .search scall])
  else
    let capabilities_used := capabilities_used ++ [Capability.VISION]
    let system_prompt := VISION_PHOTO_DESCRIPTION_SYSTEM_MESSAGE ++ extra_context
    let vcall : VisionCall := ⟨system_prompt, query, image_bytes⟩
    let vres := B.vision_query_image vcall token_usage_by_model
    (.text vres.1, capabilities_used, vres.2, [.vision vcall])

/-! ## Debug tool-use records -/

/-- One entry of the `tools_used` trace: the initial learned-context log
entry, a per-tool debug record (`create_debug_tool_info_object`; the
wall-clock `tool_time` field is real time and not modelled), or the
record shape of `create_hallucinated_tool_info_object`. -/
inductive DebugRecord
  | learned (learned_context : List (String × String))
  | toolInfo (tool : String) (tool_args : List (String × ArgValue))
      (search_result : Option String)
  | hallucinated (tool : String)

/-- The value redaction in `create_debug_tool_info_object`: binary payloads
become the `"<bytes>"` placeholder. (The source also joins list-valued
arguments with `", "`; the only list-valued argument is the capabilities
accumulator, which sits behind an opaque reference marker here and is left as
that marker.) -/
def redact_debug_value : ArgValue → ArgValue
  | .image_bytes (some _) => .json (.str "<bytes>")
  | v => v

/-- `create_debug_tool_info_object` (minus the unmodelled wall-clock
`tool_time`): redact values, delete the service-handle and accumulator keys,
and attach the search-result metadata when truthy (Python `if search_result:`
also drops an empty string). -/
def create_debug_tool_info_object (function_name : String)
    (function_args : List (String × ArgValue)) (search_result : Option String) :
    DebugRecord :=
  let function_args := function_args.map (fun kv => (kv.1, redact_debug_value kv.2))
  let function_args := function_args.filter
    (fun kv => !(kv.1 == "vision") && !(kv.1 == "web_search") &&
               !(kv.1 == "token_usage_by_model") && !(kv.1 == "prompt"))
  .toolInfo function_name function_args
    (match search_result with
     | some s => if 0 < s.length then some s else none
     | none => none)

/-- `create_hallucinated_tool_info_object`: dead code in the source — defined
but never invoked anywhere. -/
def create_hallucinated_tool_info_object (function_name : String) : DebugRecord :=
  .hallucinated function_name

/-! ## Tool Dispatcher (`handle_tool`) -/

/-- The hallucinated-tool error string returned for an unknown tool name. -/
def ERROR_HALLUCINATED_TOOL : String :=
  "Error: you hallucinated a tool that doesn't exist. Tell user you had trouble interpreting the request and ask them to rephrase it."

/-- The keys of the fixed `tool_functions` name-to-handler table. -/
def tool_function_names : List String :=
  [SEARCH_TOOL_NAME, PHOTO_TOOL_NAME, DUMMY_SEARCH_TOOL_NAME]

/-- The shared mutable accumulators threaded through `handle_tool`. -/
structure ToolState where
  token_usage_by_model : TokenMap
  capabilities_used : List Capability
  tools_used : List DebugRecord

/-- Keyword-argument extraction for `function_to_call(**function_args)`:
a string-valued argument. The fallback arm is unreachable for the keys the
dispatcher reads (the sanitizer guarantees present string values). -/
def argStr (args : List (String × ArgValue)) (k : String) : String :=
  match lookupD args k with
  | some (.json (.str s)) => s
  | _ => ""

/-- Keyword-argument extraction: a boolean argument; an absent key means the
handler's Python default `False` applies. -/
def argBool (args : List (String × ArgValue)) (k : String) : Bool :=
  match lookupD args k with
  | some (.json (.bool b)) => b
  | _ => false

/-- Keyword-argument extraction: the injected `image_bytes`. -/
def argImage (args : List (String × ArgValue)) : Option (List Nat) :=
  match lookupD args "image_bytes" with
  | some (.image_bytes b) => b
  | _ => none

/-- Keyword-argument extraction: the injected `local_time`. -/
def argLocalTime (args : List (String × ArgValue)) : Option String :=
  match lookupD args "local_time" with
  | some (.local_time t) => t
  | _ => none

/-- Keyword-argument extraction: the injected `learned_context`. -/
def argLearned (args : List (String × ArgValue)) : Option (List (String × String)) :=
  match lookupD args "learned_context" with
  | some (.learned_context lc) => lc
  | _ => none

/-- `handle_tool`: resolve the tool name against the fixed table (unknown
name: return the hallucination-error string, touching nothing), sanitize the
arguments, invoke the handler, record capability usage (the photo tool
self-reports) and append the debug record. The returned triple is the tool
output string, the updated shared accumulators and the backend-call trace;
exceptions escaping the sanitizer propagate as `.error`. -/
def handle_tool (tool_call : ChatCompletionMessageToolCall) (user_message : String)
    (image_bytes : Option (List Nat)) (location local_time : Option String)
    (B : Backends) (learned_context : Option (List (String × String)))
    (st : ToolState) : Except String (String × ToolState × List BackendCall) :=
  if tool_call.function.name ∉ tool_function_names then
    .ok (ERROR_HALLUCINATED_TOOL, st, [])
  else
    match prepare_tool_arguments tool_call user_message image_bytes location
        local_time learned_context with
    | .error e => .error e
    | .ok args =>
      if tool_call.function.name = SEARCH_TOOL_NAME then
        let scall : WebSearchCall :=
          ⟨argStr args QUERY_PARAM_NAME, some (argStr args "location"), false, none⟩
        let function_response := B.search_web scall
        let st := { st with
          capabilities_used := st.capabilities_used ++ [Capability.WEB_SEARCH] }
        let st := { st with
          tools_used := st.tools_used ++
            [create_debug_tool_info_object tool_call.function.name args
              (some function_response.search_provider_metadata)] }
        .ok (function_response.summary, st, [.search scall])
      else if tool_call.function.name = PHOTO_TOOL_NAME then
        let r := handle_photo_tool (argStr args QUERY_PARAM_NAME) B
            st.token_usage_by_model st.capabilities_used
            (argBool args PHOTO_TOOL_WEB_SEARCH_PARAM_NAME)
            (argBool args PHOTO_TOOL_TRANSLATION_PARAM_NAME)
            (argImage args) (argLocalTime args) (some (argStr args "location"))
            (argLearned args)
        let st := { st with token_usage_by_model := r.2.2.1, capabilities_used := r.2.1 }
        let st := { st with
          tools_used := st.tools_used ++
            [create_debug_tool_info_object tool_call.function.name args
              (match r.1 with
               | .websearch res => some res.search_provider_metadata
               | .text _ => none)] }
        .ok ((match r.1 with
              | .websearch res => res.summary
              | .text s => s), st, r.2.2.2)
      else
        let function_response := handle_general_knowledge_tool
          (argStr args QUERY_PARAM_NAME) none none (some (argStr args "location")) none
        let st := { st with
          capabilities_used := st.capabilities_used ++ [Capability.ASSISTANT_KNOWLEDGE] }
        let st := { st with
          tools_used := st.tools_used ++
            [create_debug_tool_info_object tool_call.function.name args none] }
        .ok (function_response, st, [])

/-! ## Serialization of the debug trace

`json.dumps(tools_used)` is an external stdlib call; it is modelled by the
deterministic rendering below. No theorem depends on the exact text. -/

mutual
def dumpJValue : JValue → String
  | .str s => "\"" ++ s ++ "\""
  | .bool b => if b then "true" else "false"
  | .num n => toString n
  | .null => "null"
  | .arr es => "[" ++ dumpJArray es ++ "]"
  | .obj es => "\x7b" ++ dumpJObject es ++ "\x7d"

def dumpJArray : List JValue → String
  | [] => ""
  | [v] => dumpJValue v
  | v :: rest => dumpJValue v ++ ", " ++ dumpJArray rest

def dumpJObject : List (String × JValue) → String
  | [] => ""
  | [kv] => "\"" ++ kv.1 ++ "\": " ++ dumpJValue kv.2
  | kv :: rest => "\"" ++ kv.1 ++ "\": " ++ dumpJValue kv.2 ++ ", " ++ dumpJObject rest
end

def dumpStrDict (l : List (String × String)) : String :=
  "\x7b" ++
    String.intercalate ", " (l.map (fun kv => "\"" ++ kv.1 ++ "\": \"" ++ kv.2 ++ "\"")) ++
  "\x7d"

def dumpArgValue : ArgValue → String
  | .json v => dumpJValue v
  | .image_bytes (some _) => "\"<bytes>\""
  | .image_bytes none => "null"
  | .vision => "\"<vision>\""
  | .web_search => "\"<web_search>\""
  | .local_time (some t) => "\"" ++ t ++ "\""
  | .local_time none => "null"
  | .learned_context (some lc) => dumpStrDict lc
  | .learned_context none => "null"
  | .token_usage => "\"<token_usage_by_model>\""
  | .capabilities => "\"<capabilities_used>\""

def dumpDebugRecord : DebugRecord → String
  | .learned lc => "\x7b\"learned_context\": " ++ dumpStrDict lc ++ "\x7d"
  | .toolInfo tool args sr =>
      "\x7b\"tool\": \"" ++ tool ++ "\", \"tool_args\": \x7b" ++
        String.intercalate ", "
          (args.map (fun kv => "\"" ++ kv.1 ++ "\": " ++ dumpArgValue kv.2)) ++
      "\x7d" ++
      (match sr with
       | some s => ", \"search_result\": \"" ++ s ++ "\""
       | none => "") ++ "\x7d"
  | .hallucinated tool => "\x7b\"tool\": \"" ++ tool ++ "\", \"hallucinated\": \"true\"\x7d"

def dumps_debug (records : List DebugRecord) : String :=
  "[" ++ String.intercalate ", " (records.map dumpDebugRecord) ++ "]"

/-! ## Completion backend interface (spec section 6) -/

/-- Token usage record of one completion response. -/
structure Usage where
  prompt_tokens : Nat
  completion_tokens : Nat
  total_tokens : Nat
deriving DecidableEq, Repr

/-- `response.choices[0].message`: text content plus the optional tool-call
list (`None` collapses to `[]`, matching the `if ...tool_calls:` truthiness
test in the source). -/
structure CompletionMessage where
  content : String
  tool_calls : List ChatCompletionMessageToolCall

/-- An entry of the message list sent to the completion endpoint: a
`models.Message`, the assistant's own tool-call message appended back to the
history, or one of the raw `{"role": "tool", ...}` dicts. -/
inductive HistoryEntry
  | msg (m : Message)
  | assistantToolCalls (m : CompletionMessage)
  | toolResult (tool_call_id : String) (name : String) (content : String)

/-- One `chat.completions.create` request: model id, message list, and
whether the `TOOLS` catalog (with `tool_choice="auto"`) is attached. -/
structure CompletionRequest where
  model : String
  messages : List HistoryEntry
  tools : Bool

/-- One completion response (single choice, as consumed by the source). -/
structure CompletionResponse where
  message : CompletionMessage
  usage : Usage

/-- `AssistantResponse` (`assistant.py`, not under `src/`): modelled from the
spec, section 3: "{token usage mapping, capability list, final text response,
serialized debug/tool-trace}"; field names as used by the source. -/
structure AssistantResponse where
  token_usage_by_model : TokenMap
  capabilities_used : List Capability
  response : String
  debug_tools : String

/-- Observability trace of one turn (not part of the source's return value):
the completion requests/responses issued and every backend call made. -/
structure TurnTrace where
  first_request : CompletionRequest
  first_response : CompletionResponse
  second_request : Option CompletionRequest
  backend_calls : List BackendCall

/-! ## Turn Orchestrator (`GPTAssistant.send_to_assistant`) -/

def modelOrDefault (model : Option String) : String :=
  match model with
  | some m => m
  | none => "gpt-3.5-turbo-1106"

/-- History preparation in `send_to_assistant`: copy the history, default it
to `[system_message]` when empty or absent, otherwise prepend the default
system message unless the client already supplied one, append the new user
message, and prune. -/
def build_request_history (prompt : String) (message_history : Option (List Message)) :
    List Message :=
  let mh := match message_history with
    | some l => l
    | none => []
  let system_message : Message := ⟨Role.SYSTEM, SYSTEM_MESSAGE⟩
  let user_message : Message := ⟨Role.USER, prompt⟩
  let mh :=
    if mh.length = 0 then [system_message]
    else
      match mh with
      | m :: _ => if m.role ≠ Role.SYSTEM then system_message :: mh else mh
      | [] => mh
  prune_history (mh ++ [user_message])

/-- The message list of the first completion request: pruned history followed
by the extra context system message. The learned-context mapping is the
constant empty dict — the extraction step is commented out in the source
(`learned_context = {}`). -/
def first_request_messages (prompt : String) (message_history : Option (List Message))
    (location_address local_time : Option String) : List HistoryEntry :=
  (build_request_history prompt message_history ++
    [Message.mk Role.SYSTEM
      (create_context_system_message local_time location_address (some []))]).map
    HistoryEntry.msg

/-- The first completion request of a turn: full tool catalog attached. -/
def first_request (prompt : String) (message_history : Option (List Message))
    (location_address local_time : Option String) (model : Option String) :
    CompletionRequest :=
  ⟨modelOrDefault model, first_request_messages prompt message_history location_address local_time, true⟩

/-- The fan-out over the requested tool calls. In the source the handlers run
concurrently under `asyncio.gather`, which returns the outputs in request
order; the shared accumulators are interleaved nondeterministically mid-flight
and are serialized here in request order (no claim depends on the interleaving
of the shared-container writes). An exception in any handler propagates and
aborts the whole turn. -/
def run_tool_calls (B : Backends) (user_message : String)
    (image_bytes : Option (List Nat)) (location local_time : Option String)
    (learned_context : Option (List (String × String))) :
    ToolState → List ChatCompletionMessageToolCall →
    Except String (List String × ToolState × List BackendCall)
  | st, [] => .ok ([], st, [])
  | st, tc :: rest =>
    match handle_tool tc user_message image_bytes location local_time B
        learned_context st with
    | .error e => .error e
    | .ok (out, st1, calls) =>
      match run_tool_calls B user_message image_bytes location local_time
          learned_context st1 rest with
      | .error e => .error e
      | .ok (outs, st2, calls2) => .ok (out :: outs, st2, calls ++ calls2)

/-- `GPTAssistant.send_to_assistant`: the two-call turn protocol. Returns the
`AssistantResponse` plus the observability trace; a Python exception escaping
the tool fan-out aborts the turn as `.error`. -/
def send_to_assistant (client : CompletionRequest → CompletionResponse) (B : Backends)
    (prompt : String) (image_bytes : Option (List Nat))
    (message_history : Option (List Message))
    (location_address local_time : Option String) (model : Option String) :
    Except String (AssistantResponse × TurnTrace) :=
  let m := modelOrDefault model
  let req1 := first_request prompt message_history location_address local_time model
  let first_response := client req1
  let token_usage_by_model := accumulate_token_usage [] m
      first_response.usage.prompt_tokens first_response.usage.completion_tokens
      first_response.usage.total_tokens
  let learned_context : List (String × String) := []
  let tools_used : List DebugRecord := [.learned learned_context]
  if first_response.message.tool_calls.isEmpty then
    let capabilities_used : List Capability := []
    let capabilities_used :=
      if capabilities_used.length = 0 then capabilities_used ++ [Capability.ASSISTANT_KNOWLEDGE]
      else capabilities_used
    .ok ({ token_usage_by_model := token_usage_by_model,
           capabilities_used := capabilities_used,
           response := first_response.message.content,
           debug_tools := dumps_debug tools_used },
         { first_request := req1, first_response := first_response,
           second_request := none, backend_calls := [] })
  else
    match run_tool_calls B prompt image_bytes location_address local_time
        (some learned_context) ⟨token_usage_by_model, [], tools_used⟩
        first_response.message.tool_calls with
    | .error e => .error e
    | .ok (tool_outputs, st, backend_calls) =>
      let messages := req1.messages ++
        [HistoryEntry.assistantToolCalls first_response.message] ++
        (first_response.message.tool_calls.zip tool_outputs).map
          (fun p => HistoryEntry.toolResult p.1.id p.1.function.name p.2)
      let req2 : CompletionRequest := ⟨m, messages, false⟩
      let second_response := client req2
      let token_usage_final := accumulate_token_usage st.token_usage_by_model m
          second_response.usage.prompt_tokens second_response.usage.completion_tokens
          second_response.usage.total_tokens
      let capabilities_used :=
        if st.capabilities_used.length = 0 then
          st.capabilities_used ++ [Capability.ASSISTANT_KNOWLEDGE]
        else st.capabilities_used
      .ok ({ token_usage_by_model := token_usage_final,
             capabilities_used := capabilities_used,
             response := second_response.message.content,
             debug_tools := dumps_debug st.tools_used },
           { first_request := req1, first_response := first_response,
             second_request := some req2, backend_calls := backend_calls })

/-! ## Predicates used in theorem statements -/

/-- The message has the user role. -/
def is_user (m : Message) : Bool := m.role == Role.USER

/-- The message has the assistant role. -/
def is_assistant (m : Message) : Bool := m.role == Role.ASSISTANT

/-- The message has a role other than user/assistant (system or tool). -/
def is_other_role (m : Message) : Bool := !(is_user m) && !(is_assistant m)

/-- The parameter schema the catalog declares for a tool name. -/
def declared_params (name : String) : List (String × String) :=
  match TOOLS.find? (fun d => d.name = name) with
  | some fd => fd.parameters
  | none => []

/-- The caller-injected keys of a sanitized argument mapping: `location` for
every tool, plus the photo tool's capability grants. -/
def injected_keys (name : String) : List String :=
  if name = PHOTO_TOOL_NAME then
    ["location", "image_bytes", "vision", "web_search", "local_time",
     "learned_context", "token_usage_by_model", "capabilities_used"]
  else ["location"]

/-- A supplied argument value matches its declared parameter type. -/
def well_typed (function_parameters : List (String × String)) (k : String) (v : JValue) : Bool :=
  match lookupD function_parameters k with
  | some ty => if ty = "string" then v.isStr else if ty = "boolean" then v.isBool else false
  | none => false

/-- Every vision-backend call of a turn carries one of the two photo-tool
system prompts, grounded with the turn's time, the injected location string
and the empty learned-context mapping. -/
def vision_grounded (local_time location : Option String) (c : BackendCall) : Bool :=
  match c with
  | .vision v =>
      (v.system_message ==
        VISION_PHOTO_DESCRIPTION_SYSTEM_MESSAGE ++ "\n\n" ++
          create_context_system_message local_time (some (default_location location)) (some [])) ||
      (v.system_message ==
        VISION_GENERATE_REVERSE_IMAGE_SEARCH_QUERY_FROM_PHOTO_SYSTEM_MESSAGE ++ "\n\n" ++
          create_context_system_message local_time (some (default_location location)) (some []))
  | .search _ => true

/-! ## Lemmas: History Pruner -/

theorem prune_scan_filter_user (l : List Message) :
    ∀ a u, (prune_scan a u l).filter is_user = (l.filter is_user).take u := by
  induction l with
  | nil => intro a u; simp [prune_scan]
  | cons m rest ih =>
    intro a u
    by_cases hA : m.role = Role.ASSISTANT
    · have hu : is_user m = false := by simp [is_user, hA]
      cases a with
      | zero => simp [prune_scan, hA, List.filter_cons, hu, ih]
      | succ n => simp [prune_scan, hA, List.filter_cons, hu, ih]
    · by_cases hU : m.role = Role.USER
      · have hu : is_user m = true := by simp [is_user, hU]
        cases u with
        | zero => simp [prune_scan, hA, hU, List.filter_cons, hu, ih]
        | succ n => simp [prune_scan, hA, hU, List.filter_cons, hu, ih]
      · have hu : is_user m = false := by simp [is_user, hU]
        simp [prune_scan, hA, hU, List.filter_cons, hu, ih]

theorem prune_scan_filter_assistant (l : List Message) :
    ∀ a u, (prune_scan a u l).filter is_assistant = (l.filter is_assistant).take a := by
  induction l with
  | nil => intro a u; simp [prune_scan]
  | cons m rest ih =>
    intro a u
    by_cases hA : m.role = Role.ASSISTANT
    · have ha : is_assistant m = true := by simp [is_assistant, hA]
      cases a with
      | zero => simp [prune_scan, hA, List.filter_cons, ha, ih]
      | succ n => simp [prune_scan, hA, List.filter_cons, ha, ih]
    · by_cases hU : m.role = Role.USER
      · have ha : is_assistant m = false := by simp [is_assistant, hA]
        cases u with
        | zero => simp [prune_scan, hA, hU, List.filter_cons, ha, ih]
        | succ n => simp [prune_scan, hA, hU, List.filter_cons, ha, ih]
      · have ha : is_assistant m = false := by simp [is_assistant, hA]
        simp [prune_scan, hA, hU, List.filter_cons, ha, ih]

theorem prune_scan_filter_other (l : List Message) :
    ∀ a u, (prune_scan a u l).filter is_other_role = l.filter is_other_role := by
  induction l with
  | nil => intro a u; simp [prune_scan]
  | cons m rest ih =>
    intro a u
    by_cases hA : m.role = Role.ASSISTANT
    · have ho : is_other_role m = false := by simp [is_other_role, is_assistant, hA]
      cases a with
      | zero => simp [prune_scan, hA, List.filter_cons, ho, ih]
      | succ n => simp [prune_scan, hA, List.filter_cons, ho, ih]
    · by_cases hU : m.role = Role.USER
      · have ho : is_other_role m = false := by simp [is_other_role, is_user, hU]
        cases u with
        | zero => simp [prune_scan, hA, hU, List.filter_cons, ho, ih]
        | succ n => simp [prune_scan, hA, hU, List.filter_cons, ho, ih]
      · have ho : is_other_role m = true := by
          simp [is_other_role, is_user, is_assistant, hA, hU]
        simp [prune_scan, hA, hU, List.filter_cons, ho, ih]

theorem prune_scan_sublist (l : List Message) :
    ∀ a u, List.Sublist (prune_scan a u l) l := by
  induction l with
  | nil => intro a u; simp [prune_scan]
  | cons m rest ih =>
    intro a u
    by_cases hA : m.role = Role.ASSISTANT
    · cases a with
      | zero => simpa [prune_scan, hA] using (ih 0 u).cons m
      | succ n => simpa [prune_scan, hA] using (ih n u).cons₂ m
    · by_cases hU : m.role = Role.USER
      · cases u with
        | zero => simpa [prune_scan, hA, hU] using (ih a 0).cons m
        | succ n => simpa [prune_scan, hA, hU] using (ih a n).cons₂ m
      · simpa [prune_scan, hA, hU] using (ih a u).cons₂ m

theorem prune_scan_idem (l : List Message) :
    ∀ a u, prune_scan a u (prune_scan a u l) = prune_scan a u l := by
  induction l with
  | nil => intro a u; simp [prune_scan]
  | cons m rest ih =>
    intro a u
    by_cases hA : m.role = Role.ASSISTANT
    · cases a with
      | zero => simp [prune_scan, hA, ih]
      | succ n => simp [prune_scan, hA, ih]
    · by_cases hU : m.role = Role.USER
      · cases u with
        | zero => simp [prune_scan, hA, hU, ih]
        | succ n => simp [prune_scan, hA, hU, ih]
      · simp [prune_scan, hA, hU, ih]

/-! ## Lemmas: dict primitives -/

theorem lookupD_dictSet_self {α : Type} (k : String) (v : α) (l : List (String × α)) :
    lookupD (dictSet k v l) k = some v := by
  induction l with
  | nil => simp [dictSet, lookupD]
  | cons kv rest ih =>
    obtain ⟨k', v'⟩ := kv
    by_cases h : k' = k
    · simp [dictSet, lookupD, h]
    · simp [dictSet, lookupD, h, ih]

theorem lookupD_dictSet_ne {α : Type} (k k'' : String) (v : α) (l : List (String × α))
    (h : k ≠ k'') : lookupD (dictSet k v l) k'' = lookupD l k'' := by
  induction l with
  | nil => simp [dictSet, lookupD, h]
  | cons kv rest ih =>
    obtain ⟨k', v'⟩ := kv
    by_cases h' : k' = k
    · subst h'
      simp [dictSet, lookupD, h]
    · simp [dictSet, lookupD, h', ih]

theorem mem_keys_dictSet {α : Type} (k k'' : String) (v : α) (l : List (String × α)) :
    k'' ∈ (dictSet k v l).map Prod.fst ↔ k'' = k ∨ k'' ∈ l.map Prod.fst := by
  induction l with
  | nil => simp [dictSet]
  | cons kv rest ih =>
    obtain ⟨k', v'⟩ := kv
    by_cases h : k' = k
    · subst h
      simp [dictSet]
    · simp only [dictSet, if_neg h, List.map_cons, List.mem_cons, ih]
      tauto

theorem dictSet_of_not_mem {α : Type} (k : String) (v : α) (l : List (String × α))
    (h : k ∉ l.map Prod.fst) : dictSet k v l = l ++ [(k, v)] := by
  induction l with
  | nil => simp [dictSet]
  | cons kv rest ih =>
    obtain ⟨k', v'⟩ := kv
    simp only [List.map_cons, List.mem_cons, not_or] at h
    simp [dictSet, Ne.symm h.1, ih h.2]

theorem dictSet_lookup_self {α : Type} (k : String) (v : α) (l : List (String × α))
    (h : lookupD l k = some v) : dictSet k v l = l := by
  induction l with
  | nil => simp [lookupD] at h
  | cons kv rest ih =>
    obtain ⟨k', v'⟩ := kv
    by_cases h' : k' = k
    · simp [lookupD, h'] at h
      simp [dictSet, h', h]
    · simp [lookupD, h'] at h
      simp [dictSet, h', ih h]

theorem lookupD_append_left {α : Type} (l1 l2 : List (String × α)) (k : String) (v : α)
    (h : lookupD l1 k = some v) : lookupD (l1 ++ l2) k = some v := by
  induction l1 with
  | nil => simp [lookupD] at h
  | cons kv rest ih =>
    obtain ⟨k', v'⟩ := kv
    by_cases h' : k' = k
    · simp [lookupD, h'] at h ⊢
      exact h
    · simp [lookupD, h'] at h ⊢
      exact ih h

theorem lookupD_append_right {α : Type} (l1 l2 : List (String × α)) (k : String)
    (h : lookupD l1 k = none) : lookupD (l1 ++ l2) k = lookupD l2 k := by
  induction l1 with
  | nil => simp
  | cons kv rest ih =>
    obtain ⟨k', v'⟩ := kv
    by_cases h' : k' = k
    · simp [lookupD, h'] at h
    · simp [lookupD, h'] at h ⊢
      exact ih h

theorem lookupD_eq_none_iff {α : Type} (l : List (String × α)) (k : String) :
    lookupD l k = none ↔ k ∉ l.map Prod.fst := by
  induction l with
  | nil => simp [lookupD]
  | cons kv rest ih =>
    obtain ⟨k', v'⟩ := kv
    by_cases h' : k' = k
    · subst h'
      simp [lookupD]
    · simp [lookupD, h', ih, Ne.symm h']

theorem lookupLast_cons {α : Type} (kv : String × α) (rest : List (String × α)) (k : String) :
    lookupLast (kv :: rest) k =
      Option.or (lookupLast rest k) (if kv.1 = k then some kv.2 else none) := by
  obtain ⟨k', v'⟩ := kv
  unfold lookupLast
  simp only [List.reverse_cons]
  cases h : lookupD rest.reverse k with
  | some v => simp [lookupD_append_left _ _ _ _ h, lookupLast, h]
  | none =>
      rw [lookupD_append_right _ _ _ h]
      simp [lookupD, lookupLast, h]

theorem lookupD_foldl_dictSet {α : Type} (lc : List (String × α)) :
    ∀ (ctx : List (String × α)) (k : String),
      lookupD (lc.foldl (fun c kv => dictSet kv.1 kv.2 c) ctx) k =
        Option.or (lookupLast lc k) (lookupD ctx k) := by
  induction lc with
  | nil => intro ctx k; simp [lookupLast, lookupD, Option.or]
  | cons kv rest ih =>
    intro ctx k
    rw [List.foldl_cons, ih, lookupLast_cons]
    cases h : lookupLast rest k with
    | some v => simp [Option.or]
    | none =>
      by_cases h' : kv.1 = k
      · subst h'
        simp [lookupD_dictSet_self, Option.or]
      · simp [h', lookupD_dictSet_ne _ _ _ _ h', Option.or]

/-! ## Lemmas: Context Formatter -/

theorem context_entries_some (local_time location : Option String)
    (lc : List (String × String)) :
    context_entries local_time location (some lc) =
      lc.foldl (fun c kv => dictSet kv.1 kv.2 c)
        (context_entries local_time location none) := rfl

/-! ## Claims -/

/-- C1, counterexample: the claim says the value emitted inside the
`<current_time>` tag of the grounding block is the supplied time even when the
learned-context mapping contains the key `"current_time"`. With
`local_time = "12:00 PM"` and learned context `{"current_time": "hacked"}`,
`context.update(learned_context)` overwrites the fixed entry: the produced
block reads `<current_time>hacked</current_time>` and the value at
`"current_time"` is not `"12:00 PM"`. -/
theorem C1_counterexample :
    create_context_system_message (some "12:00 PM") (some "Paris, France")
        (some [("current_time", "hacked")]) =
      CONTEXT_SYSTEM_MESSAGE_HEADER ++
        "<current_time>hacked</current_time>\n<location>Paris, France</location>" ∧
    lookupD (context_entries (some "12:00 PM") (some "Paris, France")
        (some [("current_time", "hacked")])) "current_time" ≠ some "12:00 PM" := by
  constructor
  · rfl
  · decide

/-- C1, amended: learned-context entries are merged last and override the
fixed keys on collision — the value emitted for `"current_time"` (resp.
`"location"`) is the last learned-context binding of that key when one exists,
and the fixed-key value (supplied value or disclaimer substitute) otherwise. -/
theorem C1_learned_context_is_merged_last_and_overrides
    (local_time location : Option String) (lc : List (String × String)) :
    (lookupD (context_entries local_time location (some lc)) "current_time" =
      Option.or (lookupLast lc "current_time")
        (lookupD (context_entries local_time location none) "current_time")) ∧
    (lookupD (context_entries local_time location (some lc)) "location" =
      Option.or (lookupLast lc "location")
        (lookupD (context_entries local_time location none) "location")) := by
  rw [context_entries_some]
  exact ⟨lookupD_foldl_dictSet lc _ "current_time", lookupD_foldl_dictSet lc _ "location"⟩

/-- C3: for every input sequence the History Pruner retains at most 5
user-role and at most 3 assistant-role messages, keeps every message of any
other role, preserves the original relative order (the output is a sublist of
the input), and the retained user/assistant messages are exactly the most
recent ones of their role (the last 5, resp. 3, in order). -/
theorem C3_prune_history_bounds (l : List Message) :
    (prune_history l).countP is_user ≤ 5 ∧
    (prune_history l).countP is_assistant ≤ 3 ∧
    (prune_history l).filter is_other_role = l.filter is_other_role ∧
    List.Sublist (prune_history l) l ∧
    (prune_history l).filter is_user = ((l.filter is_user).reverse.take 5).reverse ∧
    (prune_history l).filter is_assistant = ((l.filter is_assistant).reverse.take 3).reverse := by
  have hu : (prune_history l).filter is_user = ((l.filter is_user).reverse.take 5).reverse := by
    unfold prune_history
    rw [List.filter_reverse, prune_scan_filter_user, List.filter_reverse]
  have ha : (prune_history l).filter is_assistant =
      ((l.filter is_assistant).reverse.take 3).reverse := by
    unfold prune_history
    rw [List.filter_reverse, prune_scan_filter_assistant, List.filter_reverse]
  have ho : (prune_history l).filter is_other_role = l.filter is_other_role := by
    unfold prune_history
    rw [List.filter_reverse, prune_scan_filter_other, List.filter_reverse,
      List.reverse_reverse]
  refine ⟨?_, ?_, ho, ?_, hu, ha⟩
  · rw [List.countP_eq_length_filter, hu]
    simp
  · rw [List.countP_eq_length_filter, ha]
    simp
  · have h := (prune_scan_sublist l.reverse 3 5).reverse
    simpa using h

/-- C8: the History Pruner is idempotent — pruning an already-pruned sequence
returns it unchanged. -/
theorem C8_prune_history_idempotent (l : List Message) :
    prune_history (prune_history l) = prune_history l := by
  unfold prune_history
  rw [List.reverse_reverse, prune_scan_idem]

/-- C5: translation always wins over reverse image search — with
`translate = true`, the photo tool behaves identically whether
`google_reverse_image_search` is `true` or `false`: same result, same
capability recording, same token accounting, and the same backend calls. -/
theorem C5_translate_overrides_reverse_image_search (query : String) (B : Backends)
    (token_usage_by_model : TokenMap) (capabilities_used : List Capability)
    (image_bytes : Option (List Nat)) (local_time location : Option String)
    (learned_context : Option (List (String × String))) :
    handle_photo_tool query B token_usage_by_model capabilities_used true true
        image_bytes local_time location learned_context =
      handle_photo_tool query B token_usage_by_model capabilities_used false true
        image_bytes local_time location learned_context := by
  unfold handle_photo_tool
  simp

/-- C10: on the unknown-tool-name path `handle_tool` returns the
hallucination-error string as a normal value (`.ok`, never an exception) with
the shared state returned exactly as it was handed in — no debug record is
appended (in particular nothing produced by
`create_hallucinated_tool_info_object`), no capability is appended, the
token-usage mapping is unchanged — and with an empty backend-call trace (no
handler invoked). The raw argument payload is never parsed: the theorem holds
for any payload, including a parsed non-object value, which would raise
`AttributeError` if it ever reached the sanitizer. -/
theorem C10_unknown_tool_no_side_effects
    (tool_call : ChatCompletionMessageToolCall) (user_message : String)
    (image_bytes : Option (List Nat)) (location local_time : Option String)
    (B : Backends) (learned_context : Option (List (String × String)))
    (st : ToolState)
    (h : tool_call.function.name ∉ tool_function_names) :
    handle_tool tool_call user_message image_bytes location local_time B
        learned_context st = .ok (ERROR_HALLUCINATED_TOOL, st, []) := by
  unfold handle_tool
  simp [h]

/-- Witness for C10 at a concrete unknown tool call whose payload is a parsed
non-object (the parser would raise on it — so it was never parsed). -/
theorem C10_witness :
    (("xyz_tool" : String) ∉ tool_function_names) ∧
    handle_tool ⟨"call_1", ⟨"xyz_tool", .nonObject (.num 42)⟩⟩ "hi" none none none
        ⟨fun _ tu => ("", tu), fun _ => ⟨"", ""⟩⟩ none ⟨[], [], []⟩ =
      .ok (ERROR_HALLUCINATED_TOOL, ⟨[], [], []⟩, []) :=
  ⟨by decide,
   C10_unknown_tool_no_side_effects ⟨"call_1", ⟨"xyz_tool", .nonObject (.num 42)⟩⟩
     "hi" none none none ⟨fun _ tu => ("", tu), fun _ => ⟨"", ""⟩⟩ none ⟨[], [], []⟩
     (by decide)⟩

/-- C2, counterexample: for a tool call with unparsable raw JSON the sanitizer
does not return an *empty* mapping — it returns the injected defaults
(`location` and `query`), which form a non-empty mapping. -/
theorem C2_counterexample :
    prepare_tool_arguments ⟨"call_1", ⟨"search", .unparsable⟩⟩ "hello" none none none none =
      .ok [("location", ArgValue.json (.str "unknown")),
           ("query", ArgValue.json (.str "hello"))] ∧
    ([("location", ArgValue.json (.str "unknown")),
      ("query", ArgValue.json (.str "hello"))] : List (String × ArgValue)) ≠ [] :=
  ⟨rfl, by simp⟩

/-- C2, amended: for every tool call to a declared tool whose raw JSON
argument text is unparsable, the sanitizer never raises and returns the
mapping holding exactly the injected defaults — the location key (the supplied
location, or `"unknown"` when absent or empty) and the query key defaulted to
the raw user utterance, plus the photo tool's caller-only injections when the
tool is the photo tool. The parsed arguments contribute nothing. -/
theorem C2_unparsable_arguments_degrade_to_defaults
    (tool_call : ChatCompletionMessageToolCall) (user_message : String)
    (image_bytes : Option (List Nat)) (location local_time : Option String)
    (learned_context : Option (List (String × String)))
    (hname : tool_call.function.name ∈ tool_function_names)
    (hargs : tool_call.function.arguments = .unparsable) :
    prepare_tool_arguments tool_call user_message image_bytes location local_time
        learned_context =
      .ok (if tool_call.function.name = PHOTO_TOOL_NAME then
        [("location", ArgValue.json (.str (default_location location))),
         ("query", ArgValue.json (.str user_message)),
         ("image_bytes", ArgValue.image_bytes image_bytes),
         ("vision", ArgValue.vision),
         ("web_search", ArgValue.web_search),
         ("local_time", ArgValue.local_time local_time),
         ("learned_context", ArgValue.learned_context learned_context),
         ("token_usage_by_model", ArgValue.token_usage),
         ("capabilities_used", ArgValue.capabilities)]
      else
        [("location", ArgValue.json (.str (default_location location))),
         ("query", ArgValue.json (.str user_message))]) := by
  obtain ⟨id, name, args⟩ := tool_call
  simp only at hargs
  subst hargs
  simp only [tool_function_names, SEARCH_TOOL_NAME, PHOTO_TOOL_NAME,
    DUMMY_SEARCH_TOOL_NAME, List.mem_cons, List.not_mem_nil, or_false] at hname
  rcases hname with h | h | h <;> subst h <;> rfl

/-- Witness for C2 at a concrete unparsable photo-tool call. -/
theorem C2_witness :
    prepare_tool_arguments ⟨"call_1", ⟨"analyze_photo", .unparsable⟩⟩ "hola"
        (some [7]) none (some "3pm") (some []) =
      .ok [("location", ArgValue.json (.str "unknown")),
           ("query", ArgValue.json (.str "hola")),
           ("image_bytes", ArgValue.image_bytes (some [7])),
           ("vision", ArgValue.vision),
           ("web_search", ArgValue.web_search),
           ("local_time", ArgValue.local_time (some "3pm")),
           ("learned_context", ArgValue.learned_context (some [])),
           ("token_usage_by_model", ArgValue.token_usage),
           ("capabilities_used", ArgValue.capabilities)] :=
  C2_unparsable_arguments_degrade_to_defaults
    ⟨"call_1", ⟨"analyze_photo", .unparsable⟩⟩ "hola" (some [7]) none (some "3pm")
    (some []) (by decide) rfl

/-! ## Lemmas: Tool Argument Sanitizer -/

theorem lookupD_mem {α : Type} (l : List (String × α)) (k : String) (v : α)
    (h : lookupD l k = some v) : (k, v) ∈ l := by
  induction l with
  | nil => simp [lookupD] at h
  | cons kv rest ih =>
    obtain ⟨k', v'⟩ := kv
    by_cases h' : k' = k
    · subst h'
      simp [lookupD] at h
      simp [h]
    · simp [lookupD, h'] at h
      simp [ih h]

theorem nodup_keys_val_eq {α : Type} (l : List (String × α))
    (hnd : (l.map Prod.fst).Nodup) (k : String) (v v' : α)
    (h1 : (k, v) ∈ l) (h2 : (k, v') ∈ l) : v = v' := by
  induction l with
  | nil => simp at h1
  | cons kv rest ih =>
    obtain ⟨k0, v0⟩ := kv
    simp only [List.map_cons, List.nodup_cons] at hnd
    rcases List.mem_cons.mp h1 with e1 | m1
    · cases e1
      rcases List.mem_cons.mp h2 with e2 | m2
      · exact (Prod.mk.injEq _ _ _ _ ▸ e2).2.symm
      · exact absurd (List.mem_map.mpr ⟨(k, v'), m2, rfl⟩) hnd.1
    · rcases List.mem_cons.mp h2 with e2 | m2
      · cases e2
        exact absurd (List.mem_map.mpr ⟨(k, v), m1, rfl⟩) hnd.1
      · exact ih hnd.2 m1 m2

theorem sanitizeEntries_eq_filter (function_parameters : List (String × String))
    (hp : ∀ p ∈ function_parameters, p.2 = "string" ∨ p.2 = "boolean")
    (entries : List (String × JValue)) :
    sanitizeEntries function_parameters entries =
      .ok (entries.filter (fun kv => well_typed function_parameters kv.1 kv.2)) := by
  induction entries with
  | nil => simp [sanitizeEntries]
  | cons kv rest ih =>
    obtain ⟨k, v⟩ := kv
    cases h : lookupD function_parameters k with
    | none => simp [sanitizeEntries, h, well_typed, List.filter_cons, ih]
    | some ty =>
      have hty := hp (k, ty) (lookupD_mem _ _ _ h)
      simp only at hty
      rcases hty with h1 | h1
      · subst h1
        cases hv : v.isStr with
        | true => simp [sanitizeEntries, h, well_typed, List.filter_cons, hv, ih]
        | false => simp [sanitizeEntries, h, well_typed, List.filter_cons, hv, ih]
      · subst h1
        cases hv : v.isBool with
        | true => simp [sanitizeEntries, h, well_typed, List.filter_cons, hv, ih]
        | false => simp [sanitizeEntries, h, well_typed, List.filter_cons, hv, ih]

theorem mem_filter_well_typed_keys (function_parameters : List (String × String))
    (entries : List (String × JValue)) (k : String)
    (hk : k ∈ ((entries.filter (fun kv => well_typed function_parameters kv.1 kv.2)).map
      Prod.fst)) : k ∈ function_parameters.map Prod.fst := by
  obtain ⟨kv, hkv, hfst⟩ := List.mem_map.mp hk
  have h2 := (List.mem_filter.mp hkv).2
  by_contra hnk
  rw [← hfst] at hnk
  rw [well_typed, (lookupD_eq_none_iff function_parameters kv.1).mpr hnk] at h2
  exact Bool.false_ne_true h2

theorem prepare_object_normal_form (id name : String) (entries : List (String × JValue))
    (user_message : String) (image_bytes : Option (List Nat))
    (location local_time : Option String)
    (learned_context : Option (List (String × String))) (fd : ToolFunction)
    (hfind : TOOLS.find? (fun d => d.name = name) = some fd)
    (hp : ∀ p ∈ fd.parameters, p.2 = "string" ∨ p.2 = "boolean") :
    prepare_tool_arguments ⟨id, ⟨name, .object entries⟩⟩ user_message image_bytes
        location local_time learned_context =
      .ok (if name = PHOTO_TOOL_NAME then
        dictSet "capabilities_used" ArgValue.capabilities
          (dictSet "token_usage_by_model" ArgValue.token_usage
            (dictSet "learned_context" (ArgValue.learned_context learned_context)
              (dictSet "local_time" (ArgValue.local_time local_time)
                (dictSet "web_search" ArgValue.web_search
                  (dictSet "vision" ArgValue.vision
                    (dictSet "image_bytes" (ArgValue.image_bytes image_bytes)
                      (dictSet QUERY_PARAM_NAME
                        (match lookupD
                            (dictSet "location"
                              (ArgValue.json (.str (default_location location)))
                              ((entries.filter
                                  (fun kv => well_typed fd.parameters kv.1 kv.2)).map
                                (fun kv => (kv.1, ArgValue.json kv.2))))
                            QUERY_PARAM_NAME with
                         | some v => v
                         | none => ArgValue.json (.str user_message))
                        (dictSet "location"
                          (ArgValue.json (.str (default_location location)))
                          ((entries.filter
                              (fun kv => well_typed fd.parameters kv.1 kv.2)).map
                            (fun kv => (kv.1, ArgValue.json kv.2)))))))))))
      else
        dictSet QUERY_PARAM_NAME
          (match lookupD
              (dictSet "location" (ArgValue.json (.str (default_location location)))
                ((entries.filter (fun kv => well_typed fd.parameters kv.1 kv.2)).map
                  (fun kv => (kv.1, ArgValue.json kv.2))))
              QUERY_PARAM_NAME with
           | some v => v
           | none => ArgValue.json (.str user_message))
          (dictSet "location" (ArgValue.json (.str (default_location location)))
            ((entries.filter (fun kv => well_typed fd.parameters kv.1 kv.2)).map
              (fun kv => (kv.1, ArgValue.json kv.2))))) := by
  unfold prepare_tool_arguments
  rw [show (⟨id, ⟨name, .object entries⟩⟩ :
    ChatCompletionMessageToolCall).function.name = name from rfl]
  rw [hfind]
  dsimp only
  rw [sanitizeEntries_eq_filter fd.parameters hp entries]

theorem mem_keys_photo_chain (image_bytes : Option (List Nat))
    (local_time : Option String) (learned_context : Option (List (String × String)))
    (args : List (String × ArgValue)) (k : String) :
    k ∈ ((dictSet "capabilities_used" ArgValue.capabilities
      (dictSet "token_usage_by_model" ArgValue.token_usage
        (dictSet "learned_context" (ArgValue.learned_context learned_context)
          (dictSet "local_time" (ArgValue.local_time local_time)
            (dictSet "web_search" ArgValue.web_search
              (dictSet "vision" ArgValue.vision
                (dictSet "image_bytes" (ArgValue.image_bytes image_bytes)
                  args))))))).map Prod.fst) ↔
    k = "capabilities_used" ∨ k = "token_usage_by_model" ∨ k = "learned_context" ∨
    k = "local_time" ∨ k = "web_search" ∨ k = "vision" ∨ k = "image_bytes" ∨
    k ∈ args.map Prod.fst := by
  simp only [mem_keys_dictSet]

theorem lookupD_photo_chain (image_bytes : Option (List Nat))
    (local_time : Option String) (learned_context : Option (List (String × String)))
    (args : List (String × ArgValue)) (k : String)
    (h : k ∉ (["image_bytes", "vision", "web_search", "local_time", "learned_context",
      "token_usage_by_model", "capabilities_used"] : List String)) :
    lookupD (dictSet "capabilities_used" ArgValue.capabilities
      (dictSet "token_usage_by_model" ArgValue.token_usage
        (dictSet "learned_context" (ArgValue.learned_context learned_context)
          (dictSet "local_time" (ArgValue.local_time local_time)
            (dictSet "web_search" ArgValue.web_search
              (dictSet "vision" ArgValue.vision
                (dictSet "image_bytes" (ArgValue.image_bytes image_bytes)
                  args))))))) k = lookupD args k := by
  simp only [List.mem_cons, List.not_mem_nil, or_false, not_or] at h
  obtain ⟨h1, h2, h3, h4, h5, h6, h7⟩ := h
  rw [lookupD_dictSet_ne _ _ _ _ (Ne.symm h7), lookupD_dictSet_ne _ _ _ _ (Ne.symm h6),
      lookupD_dictSet_ne _ _ _ _ (Ne.symm h5), lookupD_dictSet_ne _ _ _ _ (Ne.symm h4),
      lookupD_dictSet_ne _ _ _ _ (Ne.symm h3), lookupD_dictSet_ne _ _ _ _ (Ne.symm h2),
      lookupD_dictSet_ne _ _ _ _ (Ne.symm h1)]

set_option maxHeartbeats 1000000 in
theorem prepare_object_props (id name : String) (entries : List (String × JValue))
    (user_message : String) (image_bytes : Option (List Nat))
    (location local_time : Option String)
    (learned_context : Option (List (String × String))) (fd : ToolFunction)
    (hfind : TOOLS.find? (fun d => d.name = name) = some fd)
    (hp : ∀ p ∈ fd.parameters, p.2 = "string" ∨ p.2 = "boolean")
    (hqd : lookupD fd.parameters QUERY_PARAM_NAME = some "string")
    (hinj : ∀ k ∈ injected_keys name, k ∉ fd.parameters.map Prod.fst)
    (hnd : (entries.map Prod.fst).Nodup) :
    ∃ args, prepare_tool_arguments ⟨id, ⟨name, .object entries⟩⟩ user_message image_bytes
        location local_time learned_context = .ok args ∧
      (∀ k ∈ args.map Prod.fst,
        k ∈ fd.parameters.map Prod.fst ∨ k ∈ injected_keys name) ∧
      (∀ k v, (k, v) ∈ entries → well_typed fd.parameters k v = false →
        k ≠ QUERY_PARAM_NAME → k ∉ injected_keys name → k ∉ args.map Prod.fst) ∧
      lookupD args "location" = some (ArgValue.json (.str (default_location location))) ∧
      QUERY_PARAM_NAME ∈ args.map Prod.fst ∧
      ((∀ v, (QUERY_PARAM_NAME, v) ∈ entries → v.isStr = false) →
        lookupD args QUERY_PARAM_NAME = some (ArgValue.json (.str user_message))) := by
  have hNF := prepare_object_normal_form id name entries user_message image_bytes
    location local_time learned_context fd hfind hp
  set F : List (String × ArgValue) :=
    (entries.filter (fun kv => well_typed fd.parameters kv.1 kv.2)).map
      (fun kv => (kv.1, ArgValue.json kv.2)) with hF
  set LV : ArgValue := ArgValue.json (.str (default_location location)) with hLV
  set A2 : List (String × ArgValue) := dictSet "location" LV F with hA2
  set QV : ArgValue :=
    (match lookupD A2 QUERY_PARAM_NAME with
     | some v => v
     | none => ArgValue.json (.str user_message)) with hQV
  set A3 : List (String × ArgValue) := dictSet QUERY_PARAM_NAME QV A2 with hA3
  have hFkeys : ∀ k, k ∈ F.map Prod.fst → k ∈ fd.parameters.map Prod.fst := by
    intro k hk
    apply mem_filter_well_typed_keys fd.parameters entries
    rw [hF] at hk
    simpa [List.map_map, Function.comp] using hk
  have hFentry : ∀ k, k ∈ F.map Prod.fst →
      ∃ v, (k, v) ∈ entries ∧ well_typed fd.parameters k v = true := by
    intro k hk
    rw [hF] at hk
    have hk' : k ∈ (entries.filter (fun kv => well_typed fd.parameters kv.1 kv.2)).map
        Prod.fst := by
      simpa [List.map_map, Function.comp] using hk
    obtain ⟨⟨k2, v2⟩, hin, hfst⟩ := List.mem_map.mp hk'
    simp only at hfst
    subst hfst
    have h := List.mem_filter.mp hin
    exact ⟨v2, h.1, h.2⟩
  have hlocinj : ("location" : String) ∈ injected_keys name := by
    unfold injected_keys
    split <;> simp
  have hqmem : QUERY_PARAM_NAME ∈ fd.parameters.map Prod.fst :=
    List.mem_map.mpr ⟨(QUERY_PARAM_NAME, "string"), lookupD_mem _ _ _ hqd, rfl⟩
  have hmemA3 : ∀ k, k ∈ A3.map Prod.fst ↔
      k = QUERY_PARAM_NAME ∨ k = "location" ∨ k ∈ F.map Prod.fst := by
    intro k
    rw [hA3, mem_keys_dictSet, hA2, mem_keys_dictSet]
  have hkeyP1 : ∀ k, k ∈ A3.map Prod.fst →
      k ∈ fd.parameters.map Prod.fst ∨ k ∈ injected_keys name := by
    intro k hk
    rcases (hmemA3 k).mp hk with rfl | rfl | hk
    · exact Or.inl hqmem
    · exact Or.inr hlocinj
    · exact Or.inl (hFkeys _ hk)
  have hkeyP2 : ∀ k v, (k, v) ∈ entries → well_typed fd.parameters k v = false →
      k ≠ QUERY_PARAM_NAME → k ∉ injected_keys name → k ∉ A3.map Prod.fst := by
    intro k v hkv hwt hkq hkinj hmem
    rcases (hmemA3 k).mp hmem with rfl | rfl | hk
    · exact hkq rfl
    · exact hkinj hlocinj
    · obtain ⟨v2, hv2, hwt2⟩ := hFentry _ hk
      rw [nodup_keys_val_eq entries hnd k v v2 hkv hv2] at hwt
      rw [hwt] at hwt2
      exact Bool.false_ne_true hwt2
  have hlocA3 : lookupD A3 "location" = some LV := by
    rw [hA3, lookupD_dictSet_ne _ _ _ _ (by decide), hA2]
    exact lookupD_dictSet_self _ _ _
  have hqmemA3 : QUERY_PARAM_NAME ∈ A3.map Prod.fst := by
    rw [hmemA3]
    exact Or.inl rfl
  have hqdefA3 : (∀ v, (QUERY_PARAM_NAME, v) ∈ entries → v.isStr = false) →
      lookupD A3 QUERY_PARAM_NAME = some (ArgValue.json (.str user_message)) := by
    intro hq
    have hFq : lookupD F QUERY_PARAM_NAME = none := by
      rw [lookupD_eq_none_iff]
      intro hmem
      obtain ⟨v2, hv2, hwt2⟩ := hFentry _ hmem
      rw [well_typed, hqd] at hwt2
      simp only [if_pos rfl] at hwt2
      rw [hq v2 hv2] at hwt2
      exact Bool.false_ne_true hwt2
    have hA2q : lookupD A2 QUERY_PARAM_NAME = none := by
      rw [hA2, lookupD_dictSet_ne _ _ _ _ (by decide)]
      exact hFq
    have hQVval : QV = ArgValue.json (.str user_message) := by
      rw [hQV, hA2q]
    rw [hA3, lookupD_dictSet_self, hQVval]
  by_cases hph : name = PHOTO_TOOL_NAME
  · rw [if_pos hph] at hNF
    have hsub : ∀ k', k' ∈ (["image_bytes", "vision", "web_search", "local_time",
        "learned_context", "token_usage_by_model", "capabilities_used"] : List String) →
        k' ∈ injected_keys name := by
      intro k' hk'
      unfold injected_keys
      rw [if_pos hph]
      exact List.mem_cons_of_mem _ hk'
    have hsevennotin : ¬ QUERY_PARAM_NAME ∈ (["image_bytes", "vision", "web_search",
        "local_time", "learned_context", "token_usage_by_model",
        "capabilities_used"] : List String) := by decide
    have hsevennotloc : ¬ ("location" : String) ∈ (["image_bytes", "vision", "web_search",
        "local_time", "learned_context", "token_usage_by_model",
        "capabilities_used"] : List String) := by decide
    refine ⟨_, hNF, ?_, ?_, ?_, ?_, ?_⟩
    · intro k hk
      rw [mem_keys_photo_chain] at hk
      rcases hk with rfl | rfl | rfl | rfl | rfl | rfl | rfl | hk
      · exact Or.inr (hsub "capabilities_used" (by decide))
      · exact Or.inr (hsub "token_usage_by_model" (by decide))
      · exact Or.inr (hsub "learned_context" (by decide))
      · exact Or.inr (hsub "local_time" (by decide))
      · exact Or.inr (hsub "web_search" (by decide))
      · exact Or.inr (hsub "vision" (by decide))
      · exact Or.inr (hsub "image_bytes" (by decide))
      · exact hkeyP1 _ hk
    · intro k v hkv hwt hkq hkinj hmem
      rw [mem_keys_photo_chain] at hmem
      rcases hmem with rfl | rfl | rfl | rfl | rfl | rfl | rfl | hmem
      · exact hkinj (hsub "capabilities_used" (by decide))
      · exact hkinj (hsub "token_usage_by_model" (by decide))
      · exact hkinj (hsub "learned_context" (by decide))
      · exact hkinj (hsub "local_time" (by decide))
      · exact hkinj (hsub "web_search" (by decide))
      · exact hkinj (hsub "vision" (by decide))
      · exact hkinj (hsub "image_bytes" (by decide))
      · exact hkeyP2 k v hkv hwt hkq hkinj hmem
    · rw [lookupD_photo_chain _ _ _ _ _ hsevennotloc]
      exact hlocA3
    · rw [mem_keys_photo_chain]
      exact Or.inr (Or.inr (Or.inr (Or.inr (Or.inr (Or.inr (Or.inr hqmemA3))))))
    · intro hq
      rw [lookupD_photo_chain _ _ _ _ _ hsevennotin]
      exact hqdefA3 hq
  · rw [if_neg hph] at hNF
    exact ⟨_, hNF, hkeyP1, hkeyP2, hlocA3, hqmemA3, hqdefA3⟩

/-- C4, counterexample: two failures of the claim as stated. (1) A tool call
whose raw JSON is parsable but not an object (here the JSON text `42`) makes
the sanitizer raise `AttributeError` (`.keys()` on a non-dict) — there is no
output at all, in particular none containing the location key. (2) A
string-typed declared parameter supplied with a non-string value is not left
omitted when it is the query parameter: the key reappears, re-injected with
the raw user utterance. -/
theorem C4_counterexample :
    prepare_tool_arguments ⟨"call_1", ⟨"search", .nonObject (.num 42)⟩⟩ "hi" none
        none none none = .error "AttributeError" ∧
    prepare_tool_arguments ⟨"call_1", ⟨"search", .object [("query", .num 42)]⟩⟩
        "capital of France" none none none none =
      .ok [("location", ArgValue.json (.str "unknown")),
           ("query", ArgValue.json (.str "capital of France"))] :=
  ⟨rfl, rfl⟩

/-- C4, amended: for every tool call to a declared tool whose raw JSON
argument text parses to a JSON object (a non-object parse raises and aborts
the turn), the sanitizer's output contains no key absent from the tool's
declared parameter schema other than the injected caller-only keys; every
string-typed declared parameter supplied with a non-string value and every
boolean-typed declared parameter supplied with a non-boolean value is dropped
— its key is absent from the output, except for the query key, which is
re-injected; a location key is always present (the supplied location or
`"unknown"`); and the query key is always present, defaulted to the raw user
utterance whenever the model did not supply a string-valued query. -/
theorem C4_object_arguments_sanitized
    (tool_call : ChatCompletionMessageToolCall) (entries : List (String × JValue))
    (user_message : String) (image_bytes : Option (List Nat))
    (location local_time : Option String)
    (learned_context : Option (List (String × String)))
    (hname : tool_call.function.name ∈ tool_function_names)
    (hargs : tool_call.function.arguments = .object entries)
    (hnd : (entries.map Prod.fst).Nodup) :
    ∃ args, prepare_tool_arguments tool_call user_message image_bytes location
        local_time learned_context = .ok args ∧
      (∀ k ∈ args.map Prod.fst,
        k ∈ (declared_params tool_call.function.name).map Prod.fst ∨
          k ∈ injected_keys tool_call.function.name) ∧
      (∀ k v, (k, v) ∈ entries →
        well_typed (declared_params tool_call.function.name) k v = false →
        k ≠ QUERY_PARAM_NAME → k ∉ injected_keys tool_call.function.name →
        k ∉ args.map Prod.fst) ∧
      lookupD args "location" = some (ArgValue.json (.str (default_location location))) ∧
      QUERY_PARAM_NAME ∈ args.map Prod.fst ∧
      ((∀ v, (QUERY_PARAM_NAME, v) ∈ entries → v.isStr = false) →
        lookupD args QUERY_PARAM_NAME = some (ArgValue.json (.str user_message))) := by
  obtain ⟨id, nm, ar⟩ := tool_call
  dsimp only at hname hargs ⊢
  subst hargs
  simp only [tool_function_names, SEARCH_TOOL_NAME, PHOTO_TOOL_NAME,
    DUMMY_SEARCH_TOOL_NAME, List.mem_cons, List.not_mem_nil, or_false] at hname
  rcases hname with rfl | rfl | rfl
  · exact prepare_object_props id "search" entries user_message image_bytes location
      local_time learned_context ⟨"search", [("query", "string")], ["query"]⟩ rfl
      (by decide) (by decide) (by decide) hnd
  · exact prepare_object_props id "analyze_photo" entries user_message image_bytes
      location local_time learned_context
      ⟨"analyze_photo", [("query", "string"), ("google_reverse_image_search", "boolean"),
        ("translate", "boolean")],
       ["query", "google_reverse_image_search", "translate"]⟩ rfl
      (by decide) (by decide) (by decide) hnd
  · exact prepare_object_props id "general_knowledge_search" entries user_message
      image_bytes location local_time learned_context
      ⟨"general_knowledge_search", [("query", "string")], ["query"]⟩ rfl
      (by decide) (by decide) (by decide) hnd

/-- Witness for C4 at a concrete photo-tool call carrying a hallucinated
parameter and a mistyped boolean. -/
theorem C4_witness :
    ∃ args, prepare_tool_arguments ⟨"call_1", ⟨"analyze_photo",
        .object [("query", JValue.str "what is this"),
                 ("google_reverse_image_search", JValue.str "yes"),
                 ("foo", JValue.str "bar")]⟩⟩ "user text" (some [1, 2]) (some "NYC")
        (some "noon") (some []) = .ok args ∧
      (∀ k ∈ args.map Prod.fst,
        k ∈ (declared_params "analyze_photo").map Prod.fst ∨
          k ∈ injected_keys "analyze_photo") ∧
      (∀ k v, (k, v) ∈ ([("query", JValue.str "what is this"),
                 ("google_reverse_image_search", JValue.str "yes"),
                 ("foo", JValue.str "bar")] : List (String × JValue)) →
        well_typed (declared_params "analyze_photo") k v = false →
        k ≠ QUERY_PARAM_NAME → k ∉ injected_keys "analyze_photo" →
        k ∉ args.map Prod.fst) ∧
      lookupD args "location" = some (ArgValue.json (.str (default_location (some "NYC")))) ∧
      QUERY_PARAM_NAME ∈ args.map Prod.fst ∧
      ((∀ v, (QUERY_PARAM_NAME, v) ∈ ([("query", JValue.str "what is this"),
                 ("google_reverse_image_search", JValue.str "yes"),
                 ("foo", JValue.str "bar")] : List (String × JValue)) → v.isStr = false) →
        lookupD args QUERY_PARAM_NAME = some (ArgValue.json (.str "user text"))) :=
  C4_object_arguments_sanitized
    ⟨"call_1", ⟨"analyze_photo",
      .object [("query", JValue.str "what is this"),
               ("google_reverse_image_search", JValue.str "yes"),
               ("foo", JValue.str "bar")]⟩⟩
    [("query", JValue.str "what is this"),
     ("google_reverse_image_search", JValue.str "yes"),
     ("foo", JValue.str "bar")]
    "user text" (some [1, 2]) (some "NYC") (some "noon") (some [])
    (by decide) rfl (by decide)

/-- C6: when the first completion response carries zero tool calls, the turn
ends after one completion — the returned response text equals the first
completion's message content verbatim and the capability list is exactly
`[assistant-knowledge]` (the default recorded when no tool recorded one). -/
theorem C6_no_tool_calls_first_content
    (client : CompletionRequest → CompletionResponse) (B : Backends)
    (prompt : String) (image_bytes : Option (List Nat))
    (message_history : Option (List Message))
    (location_address local_time : Option String) (model : Option String)
    (h : (client (first_request prompt message_history location_address local_time
      model)).message.tool_calls = []) :
    ∃ res tr, send_to_assistant client B prompt image_bytes message_history
        location_address local_time model = .ok (res, tr) ∧
      res.response = (client (first_request prompt message_history location_address
        local_time model)).message.content ∧
      res.capabilities_used = [Capability.ASSISTANT_KNOWLEDGE] := by
  unfold send_to_assistant
  simp only [h, List.isEmpty_nil, if_true]
  exact ⟨_, _, rfl, rfl, rfl⟩

/-- Witness for C6: a concrete turn whose completion backend answers directly
with no tool calls. -/
theorem C6_witness :
    ∃ res tr, send_to_assistant
        (fun _ => ⟨⟨"Paris is the capital of France.", []⟩, ⟨10, 5, 15⟩⟩)
        ⟨fun _ tu => ("", tu), fun _ => ⟨"", ""⟩⟩
        "What is the capital of France?" none none none none none = .ok (res, tr) ∧
      res.response = "Paris is the capital of France." ∧
      res.capabilities_used = [Capability.ASSISTANT_KNOWLEDGE] :=
  C6_no_tool_calls_first_content
    (fun _ => ⟨⟨"Paris is the capital of France.", []⟩, ⟨10, 5, 15⟩⟩)
    ⟨fun _ tu => ("", tu), fun _ => ⟨"", ""⟩⟩
    "What is the capital of France?" none none none none none rfl

/-- C7: when the model requests a tool whose name is not in the fixed
name-to-handler table, the dispatcher invokes no handler (the turn makes no
backend call at all) and produces the fixed hallucination-error string, and
the turn continues: the tool-role message carrying exactly that string is
threaded into the second completion request, whose content becomes the final
response. -/
theorem C7_unknown_tool_error_string
    (client : CompletionRequest → CompletionResponse) (B : Backends)
    (prompt : String) (image_bytes : Option (List Nat))
    (message_history : Option (List Message))
    (location_address local_time : Option String) (model : Option String)
    (tc : ChatCompletionMessageToolCall)
    (hcalls : (client (first_request prompt message_history location_address local_time
      model)).message.tool_calls = [tc])
    (hunk : tc.function.name ∉ tool_function_names) :
    ∃ res tr req2, send_to_assistant client B prompt image_bytes message_history
        location_address local_time model = .ok (res, tr) ∧
      tr.second_request = some req2 ∧
      HistoryEntry.toolResult tc.id tc.function.name ERROR_HALLUCINATED_TOOL ∈
        req2.messages ∧
      res.response = (client req2).message.content ∧
      tr.backend_calls = [] := by
  have hht : ∀ st, handle_tool tc prompt image_bytes location_address local_time B
      (some []) st = .ok (ERROR_HALLUCINATED_TOOL, st, []) := by
    intro st
    unfold handle_tool
    simp [hunk]
  unfold send_to_assistant
  simp only [hcalls, List.isEmpty_cons, Bool.false_eq_true, if_false, run_tool_calls,
    hht, List.zip_cons_cons, List.zip_nil_right, List.map_cons, List.map_nil,
    List.nil_append, List.append_nil]
  refine ⟨_, _, _, rfl, rfl, ?_, rfl, rfl⟩
  simp

/-- Witness for C7: a concrete turn whose completion backend requests the
unknown tool `"xyz_tool"` and then produces a final answer. -/
theorem C7_witness :
    ∃ res tr req2, send_to_assistant
        (fun req => if req.tools then
          ⟨⟨"using tool", [⟨"call_7", ⟨"xyz_tool", .unparsable⟩⟩]⟩, ⟨1, 1, 2⟩⟩
         else ⟨⟨"Could you rephrase that?", []⟩, ⟨1, 1, 2⟩⟩)
        ⟨fun _ tu => ("", tu), fun _ => ⟨"", ""⟩⟩
        "hi" none none none none none = .ok (res, tr) ∧
      tr.second_request = some req2 ∧
      HistoryEntry.toolResult "call_7" "xyz_tool" ERROR_HALLUCINATED_TOOL ∈
        req2.messages ∧
      res.response = ((((fun req => if req.tools then
          ⟨⟨"using tool", [⟨"call_7", ⟨"xyz_tool", .unparsable⟩⟩]⟩, ⟨1, 1, 2⟩⟩
         else ⟨⟨"Could you rephrase that?", []⟩, ⟨1, 1, 2⟩⟩) :
          CompletionRequest → CompletionResponse)) req2).message.content ∧
      tr.backend_calls = [] :=
  C7_unknown_tool_error_string
    (fun req => if req.tools then
      ⟨⟨"using tool", [⟨"call_7", ⟨"xyz_tool", .unparsable⟩⟩]⟩, ⟨1, 1, 2⟩⟩
     else ⟨⟨"Could you rephrase that?", []⟩, ⟨1, 1, 2⟩⟩)
    ⟨fun _ tu => ("", tu), fun _ => ⟨"", ""⟩⟩
    "hi" none none none none none ⟨"call_7", ⟨"xyz_tool", .unparsable⟩⟩ rfl (by decide)

/-! ## Lemmas: grounding of the photo tool's vision prompts -/

theorem prepare_photo_injected_lookups
    (tool_call : ChatCompletionMessageToolCall) (user_message : String)
    (image_bytes : Option (List Nat)) (location local_time : Option String)
    (learned_context : Option (List (String × String)))
    (args : List (String × ArgValue))
    (hph : tool_call.function.name = PHOTO_TOOL_NAME)
    (hok : prepare_tool_arguments tool_call user_message image_bytes location
      local_time learned_context = .ok args) :
    lookupD args "local_time" = some (.local_time local_time) ∧
    lookupD args "learned_context" = some (.learned_context learned_context) ∧
    lookupD args "location" = some (.json (.str (default_location location))) := by
  obtain ⟨id, nm, ar⟩ := tool_call
  dsimp only at hph hok
  subst hph
  cases ar with
  | unparsable =>
    have h2 := (show prepare_tool_arguments ⟨id, ⟨PHOTO_TOOL_NAME, RawArgs.unparsable⟩⟩
        user_message image_bytes location local_time learned_context =
      .ok [("location", ArgValue.json (.str (default_location location))),
           ("query", ArgValue.json (.str user_message)),
           ("image_bytes", ArgValue.image_bytes image_bytes),
           ("vision", ArgValue.vision),
           ("web_search", ArgValue.web_search),
           ("local_time", ArgValue.local_time local_time),
           ("learned_context", ArgValue.learned_context learned_context),
           ("token_usage_by_model", ArgValue.token_usage),
           ("capabilities_used", ArgValue.capabilities)] from rfl).symm.trans hok
    injection h2 with h3
    subst h3
    exact ⟨rfl, rfl, rfl⟩
  | nonObject v =>
    have h2 := (show prepare_tool_arguments ⟨id, ⟨PHOTO_TOOL_NAME, RawArgs.nonObject v⟩⟩
        user_message image_bytes location local_time learned_context =
      .error "AttributeError" from rfl).symm.trans hok
    exact absurd h2 (by simp)
  | object entries =>
    have hNF := prepare_object_normal_form id PHOTO_TOOL_NAME entries user_message
      image_bytes location local_time learned_context
      ⟨"analyze_photo", [("query", "string"), ("google_reverse_image_search", "boolean"),
        ("translate", "boolean")],
       ["query", "google_reverse_image_search", "translate"]⟩ rfl (by decide)
    rw [if_pos rfl] at hNF
    have h2 := hNF.symm.trans hok
    injection h2 with h3
    subst h3
    refine ⟨?_, ?_, ?_⟩
    · rw [lookupD_dictSet_ne _ _ _ _ (by decide), lookupD_dictSet_ne _ _ _ _ (by decide),
        lookupD_dictSet_ne _ _ _ _ (by decide)]
      exact lookupD_dictSet_self _ _ _
    · rw [lookupD_dictSet_ne _ _ _ _ (by decide), lookupD_dictSet_ne _ _ _ _ (by decide)]
      exact lookupD_dictSet_self _ _ _
    · rw [lookupD_photo_chain _ _ _ _ _ (by decide),
        lookupD_dictSet_ne _ _ _ _ (by decide)]
      exact lookupD_dictSet_self _ _ _

theorem handle_photo_tool_calls_grounded (query : String) (B : Backends)
    (token_usage_by_model : TokenMap) (capabilities_used : List Capability)
    (google_reverse_image_search translate : Bool)
    (image_bytes : Option (List Nat)) (local_time location : Option String)
    (learned_context : Option (List (String × String))) :
    ((handle_photo_tool query B token_usage_by_model capabilities_used
        google_reverse_image_search translate image_bytes local_time location
        learned_context).2.2.2).all
      (fun c => match c with
        | .vision v =>
            (v.system_message == VISION_PHOTO_DESCRIPTION_SYSTEM_MESSAGE ++ "\n\n" ++
              create_context_system_message local_time location learned_context) ||
            (v.system_message ==
              VISION_GENERATE_REVERSE_IMAGE_SEARCH_QUERY_FROM_PHOTO_SYSTEM_MESSAGE ++
                "\n\n" ++
              create_context_system_message local_time location learned_context)
        | .search _ => true) = true := by
  unfold handle_photo_tool
  by_cases h1 : image_bytes = none ∨ image_bytes = some []
  · simp [h1]
  · by_cases h2 : google_reverse_image_search && !translate
    · simp [h1, h2, String.append_assoc]
    · simp [h1, h2, String.append_assoc]

set_option maxHeartbeats 1000000 in
theorem handle_tool_calls_grounded (tc : ChatCompletionMessageToolCall)
    (prompt : String) (image_bytes : Option (List Nat))
    (location local_time : Option String) (B : Backends) (st : ToolState) :
    (match handle_tool tc prompt image_bytes location local_time B (some []) st with
     | .ok r => r.2.2.all (vision_grounded local_time location) = true
     | .error _ => True) := by
  unfold handle_tool
  by_cases hmem : tc.function.name ∈ tool_function_names
  · rw [if_neg (not_not_intro hmem)]
    cases hprep : prepare_tool_arguments tc prompt image_bytes location local_time
        (some []) with
    | error e => simp
    | ok args =>
      dsimp only
      by_cases hs : tc.function.name = SEARCH_TOOL_NAME
      · simp [hs, vision_grounded]
      · rw [if_neg hs]
        by_cases hpho : tc.function.name = PHOTO_TOOL_NAME
        · rw [if_pos hpho]
          have hlk := prepare_photo_injected_lookups tc prompt image_bytes location
            local_time (some []) args hpho hprep
          have hlt : argLocalTime args = local_time := by
            rw [argLocalTime, hlk.1]
          have hlc : argLearned args = some [] := by
            rw [argLearned, hlk.2.1]
          have hloc : argStr args "location" = default_location location := by
            rw [argStr, hlk.2.2]
          rw [hlt, hlc, hloc]
          have h2 := handle_photo_tool_calls_grounded (argStr args QUERY_PARAM_NAME) B
            st.token_usage_by_model st.capabilities_used
            (argBool args PHOTO_TOOL_WEB_SEARCH_PARAM_NAME)
            (argBool args PHOTO_TOOL_TRANSLATION_PARAM_NAME)
            (argImage args) local_time (some (default_location location)) (some [])
          exact h2
        · rw [if_neg hpho]
          simp
  · rw [if_pos hmem]
    simp

theorem run_tool_calls_grounded (B : Backends) (prompt : String)
    (image_bytes : Option (List Nat)) (location local_time : Option String) :
    ∀ (tcs : List ChatCompletionMessageToolCall) (st : ToolState),
      (match run_tool_calls B prompt image_bytes location local_time (some []) st tcs with
       | .ok r => r.2.2.all (vision_grounded local_time location) = true
       | .error _ => True) := by
  intro tcs
  induction tcs with
  | nil => intro st; simp [run_tool_calls]
  | cons tc rest ih =>
    intro st
    have h1 := handle_tool_calls_grounded tc prompt image_bytes location local_time B st
    unfold run_tool_calls
    cases hht : handle_tool tc prompt image_bytes location local_time B (some []) st with
    | error e => simp
    | ok r =>
      rw [hht] at h1
      simp only at h1
      obtain ⟨out, st1, calls⟩ := r
      have h2 := ih st1
      cases hrun : run_tool_calls B prompt image_bytes location local_time (some [])
          st1 rest with
      | error e => simp [hrun]
      | ok r2 =>
        rw [hrun] at h2
        simp only at h2
        obtain ⟨outs, st2, calls2⟩ := r2
        simp only at h1 h2
        simp [hrun, List.all_append, h1, h2]

/-- C9: the learned-context extraction step is disabled — every turn uses the
constant empty learned-context mapping. Consequently (i) the grounding block
appended as the last message of the first completion request is built from the
empty learned context, (ii) that block holds exactly the two fixed entries
`current_time` and `location` and nothing else, and (iii) every vision-backend
call the turn makes (the photo tool's only grounded prompts) carries a system
prompt grounded with the empty learned-context mapping. -/
theorem C9_learned_context_empty
    (client : CompletionRequest → CompletionResponse) (B : Backends)
    (prompt : String) (image_bytes : Option (List Nat))
    (message_history : Option (List Message))
    (location_address local_time : Option String) (model : Option String) :
    ((first_request prompt message_history location_address local_time
        model).messages.getLast? =
      some (HistoryEntry.msg ⟨Role.SYSTEM,
        create_context_system_message local_time location_address (some [])⟩)) ∧
    ((context_entries local_time location_address (some [])).map Prod.fst =
      ["current_time", "location"]) ∧
    (match send_to_assistant client B prompt image_bytes message_history
        location_address local_time model with
     | .ok p => p.2.backend_calls.all (vision_grounded local_time location_address) = true
     | .error _ => True) := by
  refine ⟨?_, ?_, ?_⟩
  · unfold first_request first_request_messages
    rw [List.map_append]
    simp
  · rfl
  · unfold send_to_assistant
    cases hc : (client (first_request prompt message_history location_address
        local_time model)).message.tool_calls with
    | nil => simp [hc]
    | cons tc rest =>
      simp only [hc, List.isEmpty_cons, Bool.false_eq_true, if_false]
      have hr := run_tool_calls_grounded B prompt image_bytes location_address
        local_time (tc :: rest)
      cases hrun : run_tool_calls B prompt image_bytes location_address local_time
          (some [])
          ⟨accumulate_token_usage [] (modelOrDefault model)
            (client (first_request prompt message_history location_address local_time
              model)).usage.prompt_tokens
            (client (first_request prompt message_history location_address local_time
              model)).usage.completion_tokens
            (client (first_request prompt message_history location_address local_time
              model)).usage.total_tokens, [], [DebugRecord.learned []]⟩
          (tc :: rest) with
      | error e => simp [hrun]
      | ok r =>
        have h2 := hr ⟨accumulate_token_usage [] (modelOrDefault model)
            (client (first_request prompt message_history location_address local_time
              model)).usage.prompt_tokens
            (client (first_request prompt message_history location_address local_time
              model)).usage.completion_tokens
            (client (first_request prompt message_history location_address local_time
              model)).usage.total_tokens, [], [DebugRecord.learned []]⟩
        rw [hrun] at h2
        simp only at h2
        obtain ⟨outs, st2, calls⟩ := r
        simp [hrun, h2]
